import Mathlib

/-!
# Monadoring health/failover/alerting core — verification development

Shallow embedding of the health, failover and alerting state machines of the
Monadoring repository, together with theorems settling the spec's claims.

The embedded functions mirror the TypeScript source:
* `isRpcHealthy` — per-endpoint stale detection (instrumentation file);
* `allOfflineStep` — the per-network all-offline gate of `runRpcHealthCheck`;
* `validatorStep` — the missed/recovered state machine of
  `checkValidatorMissedBlocks`;
* `fetchCurrentHeight` / `checkPrimaryRecovery` — the failover controller of
  the dashboard component;
* `fetchBlockHeight` / `checkRpcHealthApi` — the RPC probes of `lib/api.ts`;
* `handleMissedBlock` / `handleRecovery` — `AlertManager` in `lib/alerts.ts`;
* `routeValidatorPost` — the validator branch of the `/api/alert` POST handler.

Effects (fetches, notification sends, map mutation) are made explicit: each
stateful operation takes its state and returns the new state together with the
list of backend calls / domain events it performs, and each network read is an
explicit argument.
-/

namespace Monadoring

/-! ## RpcHealthTracker (instrumentation file, `isRpcHealthy`)

The source keeps `rpcHeights : Map<string, { height, staleCount }>`.  We embed
the per-endpoint record; the map lookup/store becomes an `Option` in and out.
-/

/-- Per-endpoint record stored in `rpcHeights`: the last seen height and the
number of consecutive non-increasing readings. -/
structure RpcHeightRecord where
  height : Nat
  staleCount : Nat
  deriving DecidableEq, Repr

/-- `isRpcHealthy(url, currentHeight)` from the instrumentation file, with the
`rpcHeights` map entry for `url` passed in and returned explicitly.
Height `0` means no response and returns unhealthy without touching the record;
a first observation records the height with `staleCount = 0`; a strictly
greater height resets `staleCount`; otherwise `staleCount` increments and the
endpoint is unhealthy once it reaches 2. -/
def isRpcHealthy (prev : Option RpcHeightRecord) (currentHeight : Nat) :
    Bool × Option RpcHeightRecord :=
  if currentHeight = 0 then
    (false, prev)
  else
    match prev with
    | none => (true, some ⟨currentHeight, 0⟩)
    | some p =>
      if currentHeight > p.height then
        (true, some ⟨currentHeight, 0⟩)
      else
        let newStaleCount := p.staleCount + 1
        (decide (newStaleCount < 2), some ⟨currentHeight, newStaleCount⟩)

/-- Run `isRpcHealthy` over a list of successive probe results, returning the
list of classifications and the final record. -/
def rpcRunAux (prev : Option RpcHeightRecord) : List Nat → List Bool × Option RpcHeightRecord
  | [] => ([], prev)
  | h :: hs =>
    let r := isRpcHealthy prev h
    let rest := rpcRunAux r.2 hs
    (r.1 :: rest.1, rest.2)

theorem rpcRunAux_cons (prev : Option RpcHeightRecord) (h : Nat) (hs : List Nat) :
    rpcRunAux prev (h :: hs) =
      ((isRpcHealthy prev h).1 :: (rpcRunAux (isRpcHealthy prev h).2 hs).1,
        (rpcRunAux (isRpcHealthy prev h).2 hs).2) := rfl

/-- Along a strictly increasing chain of positive heights starting from a
record `⟨c, 0⟩`, every probe classifies healthy and the record keeps
`staleCount = 0`. -/
theorem rpcRunAux_chain (hs : List Nat) :
    ∀ c : Nat, List.Chain (· < ·) c hs →
      rpcRunAux (some ⟨c, 0⟩) hs = (List.replicate hs.length true, some ⟨hs.getLastD c, 0⟩) := by
  induction hs with
  | nil => intro c _; rfl
  | cons h t ih =>
    intro c hchain
    rcases hchain with _ | ⟨hlt, hchain⟩
    have hh : isRpcHealthy (some ⟨c, 0⟩) h = (true, some ⟨h, 0⟩) := by
      simp only [isRpcHealthy]
      rw [if_neg (by omega), if_pos hlt]
    rw [rpcRunAux_cons, hh]
    simp [ih h hchain, List.replicate_succ, List.getLastD_cons]
    cases t with
    | nil => rfl
    | cons a as =>
      obtain ⟨x, hx⟩ :=
        Option.isSome_iff_exists.mp (List.getLast?_isSome.mpr (List.cons_ne_nil a as))
      simp [hx]

/-! ## MissedBlockTracker (instrumentation file, `checkValidatorMissedBlocks`)

The state machine core of `checkValidatorMissedBlocks`: the fetch of the
history feed becomes an explicit argument (the latest entry's round and
status), the `validatorBlockStates` map entry is passed in and returned, and
the Telegram/Discord sends become emitted domain events carrying the payload
fields the source constructs. -/

/-- Round outcome as reported by the uptime history feed. -/
inductive BlockStatus
  | finalized
  | timeout
  deriving DecidableEq, Repr

/-- Per-validator-per-network state stored in `validatorBlockStates`. -/
structure ValidatorBlockState where
  lastRound : Nat
  lastStatus : BlockStatus
  consecutiveMisses : Nat
  alertedForMiss : Bool
  deriving DecidableEq, Repr

/-- Domain events produced by the tracker (the alert payloads the source
builds: `missed` carries the new streak, `recovered` the previous streak). -/
inductive ValidatorEvent
  | missed (round streak : Nat)
  | recovered (round previousStreak : Nat)
  deriving DecidableEq, Repr

/-- One poll of `checkValidatorMissedBlocks` for a key, given the latest
history entry `(round, status)`.  First observation seeds the state without an
event; an unchanged round is a no-op; a new timeout round increments the
streak and emits `missed`; a new finalized round resets the streak and emits
`recovered` when the prior state had misses and was alerted. -/
def validatorStep (prevState : Option ValidatorBlockState) (round : Nat)
    (status : BlockStatus) : ValidatorBlockState × List ValidatorEvent :=
  match prevState with
  | none =>
    (⟨round, status, if status = .timeout then 1 else 0, false⟩, [])
  | some prev =>
    if round = prev.lastRound then (prev, [])
    else if status = .timeout then
      let newMisses := prev.consecutiveMisses + 1
      (⟨round, .timeout, newMisses, true⟩, [.missed round newMisses])
    else
      let hadMisses := decide (prev.consecutiveMisses > 0) && prev.alertedForMiss
      (⟨round, .finalized, 0, false⟩,
        if hadMisses then [.recovered round prev.consecutiveMisses] else [])

/-- C2: for a fresh key, the latest-entry sequence finalized(r1), timeout(r2),
timeout(r3), finalized(r4) over distinct rounds produces no event at r1, a
`missed` event with streak 1 at r2, a `missed` event with streak 2 at r3 and a
`recovered` event with previousStreak 2 at r4; re-observing the stored latest
round produces no event and no state change. -/
theorem claim_C2 (r1 r2 r3 r4 : Nat) (h21 : r2 ≠ r1) (h32 : r3 ≠ r2)
    (h43 : r4 ≠ r3) :
    validatorStep none r1 .finalized = (⟨r1, .finalized, 0, false⟩, []) ∧
    validatorStep (some ⟨r1, .finalized, 0, false⟩) r2 .timeout
      = (⟨r2, .timeout, 1, true⟩, [.missed r2 1]) ∧
    validatorStep (some ⟨r2, .timeout, 1, true⟩) r3 .timeout
      = (⟨r3, .timeout, 2, true⟩, [.missed r3 2]) ∧
    validatorStep (some ⟨r3, .timeout, 2, true⟩) r4 .finalized
      = (⟨r4, .finalized, 0, false⟩, [.recovered r4 2]) ∧
    (∀ (st : ValidatorBlockState) (status : BlockStatus),
        validatorStep (some st) st.lastRound status = (st, [])) := by
  refine ⟨rfl, ?_, ?_, ?_, fun st status => ?_⟩
  · simp [validatorStep, h21]
  · simp [validatorStep, h32]
  · simp [validatorStep, h43]
  · simp [validatorStep]

/-- Witness for C2 at the concrete rounds 1, 2, 3, 4. -/
theorem claim_C2_witness :
    validatorStep none 1 .finalized = (⟨1, .finalized, 0, false⟩, []) ∧
    validatorStep (some ⟨1, .finalized, 0, false⟩) 2 .timeout
      = (⟨2, .timeout, 1, true⟩, [.missed 2 1]) ∧
    validatorStep (some ⟨2, .timeout, 1, true⟩) 3 .timeout
      = (⟨3, .timeout, 2, true⟩, [.missed 3 2]) ∧
    validatorStep (some ⟨3, .timeout, 2, true⟩) 4 .finalized
      = (⟨4, .finalized, 0, false⟩, [.recovered 4 2]) ∧
    validatorStep (some ⟨4, .finalized, 0, false⟩) 4 .finalized
      = (⟨4, .finalized, 0, false⟩, []) := by
  have h := claim_C2 1 2 3 4 (by decide) (by decide) (by decide)
  exact ⟨h.1, h.2.1, h.2.2.1, h.2.2.2.1,
    h.2.2.2.2 ⟨4, .finalized, 0, false⟩ .finalized⟩

/-! ## FailoverController (dashboard component, `fetchCurrentHeight` and
`checkPrimaryRecovery`)

Per-network failover state: the refs `activeIndex` (React state),
`lastHeightRef`, `issueCountRef` and `failoverAlertSentRef` become one record;
`fetchBlockHeight` becomes an explicit oracle `heights : Nat → Nat` giving the
height each endpoint index reports during the poll; the `/api/alert` POST
becomes an emitted event. -/

/-- `FAILOVER_THRESHOLD` from the dashboard component: 30 polls. -/
def FAILOVER_THRESHOLD : Nat := 30

/-- Per-network failover state. -/
structure FailoverState where
  activeIndex : Nat
  lastHeight : Nat
  issueCount : Nat
  alertSent : Bool
  deriving DecidableEq, Repr

/-- RPC alert events sent to `/api/alert` by the failover controller. -/
inductive RpcAlert
  | rpcFailover (fromIndex toIndex : Nat)
  | rpcRecovered (fromIndex toIndex : Nat)
  deriving DecidableEq, Repr

/-- The fallback scan `for (let i = 1; i < rpcConfigs.length; i++)` of
`fetchCurrentHeight`, with an explicit fuel (the loop runs at most
`numRpcs - 1` iterations, so fuel `numRpcs` suffices).  `height` is the height
the failing active endpoint reported; a candidate at `(activeIndex + i) %
numRpcs` is accepted iff its height is positive and, when `height` is
non-zero-but-stale, strictly greater than `height`. -/
def findFallbackAux (heights : Nat → Nat) (numRpcs activeIndex height : Nat) :
    Nat → Nat → Option (Nat × Nat)
  | _, 0 => none
  | i, fuel + 1 =>
    if i < numRpcs then
      let nextIndex := (activeIndex + i) % numRpcs
      let fallbackHeight := heights nextIndex
      let isValidFallback :=
        if height = 0 then decide (fallbackHeight > 0)
        else decide (fallbackHeight > 0) && decide (fallbackHeight > height)
      if isValidFallback then some (nextIndex, fallbackHeight)
      else findFallbackAux heights numRpcs activeIndex height (i + 1) fuel
    else none

/-- The full fallback scan, starting at offset 1 from the active index. -/
def findFallback (heights : Nat → Nat) (numRpcs activeIndex height : Nat) :
    Option (Nat × Nat) :=
  findFallbackAux heights numRpcs activeIndex height 1 numRpcs

/-- One poll of `fetchCurrentHeight` for a network: returns the height served
to the dashboard, the new failover state, and the alerts sent.  An "issue" is
height 0 or a height equal to the last recorded one; below
`FAILOVER_THRESHOLD` consecutive issues the last known good height is served;
at the threshold the fallback scan runs and the first valid candidate becomes
active. -/
def fetchCurrentHeight (heights : Nat → Nat) (numRpcs : Nat) (s : FailoverState) :
    Nat × FailoverState × List RpcAlert :=
  if numRpcs = 0 then (0, s, [])
  else
    let height := heights s.activeIndex
    if height = 0 ∨ height = s.lastHeight then
      let newCount := s.issueCount + 1
      if newCount < FAILOVER_THRESHOLD then
        (if s.lastHeight ≠ 0 then s.lastHeight else height,
          { s with issueCount := newCount }, [])
      else
        match findFallback heights numRpcs s.activeIndex height with
        | some (nextIndex, fallbackHeight) =>
          (fallbackHeight, ⟨nextIndex, fallbackHeight, 0, true⟩,
            if s.alertSent then [] else [.rpcFailover s.activeIndex nextIndex])
        | none =>
          (if height = 0 then s.lastHeight else height,
            { s with issueCount := newCount }, [])
    else
      (height,
        { s with
          issueCount := 0
          lastHeight := height
          alertSent := if s.activeIndex = 0 then false else s.alertSent }, [])

/-- The state transition of one poll (the served height and alerts dropped). -/
def pollStep (heights : Nat → Nat) (numRpcs : Nat) (s : FailoverState) :
    FailoverState :=
  (fetchCurrentHeight heights numRpcs s).2.1

/-- `checkPrimaryRecovery` for one network: when some fallback is active and
the primary (index 0) reports a positive height strictly above the last known
one, switch back to the primary, reset issue/alert state and emit
`rpc_recovered`. -/
def checkPrimaryRecovery (primaryHeight numRpcs : Nat) (s : FailoverState) :
    FailoverState × List RpcAlert :=
  if s.activeIndex ≠ 0 ∧ numRpcs > 0 then
    if primaryHeight > 0 ∧ primaryHeight > s.lastHeight then
      (⟨0, primaryHeight, 0, false⟩, [.rpcRecovered s.activeIndex 0])
    else (s, [])
  else (s, [])

theorem fetchCurrentHeight_below_threshold (heights : Nat → Nat) (numRpcs : Nat)
    (s : FailoverState) (hn : numRpcs ≠ 0)
    (hiss : heights s.activeIndex = 0 ∨ heights s.activeIndex = s.lastHeight)
    (hc : s.issueCount + 1 < FAILOVER_THRESHOLD) :
    fetchCurrentHeight heights numRpcs s =
      (if s.lastHeight ≠ 0 then s.lastHeight else heights s.activeIndex,
        { s with issueCount := s.issueCount + 1 }, []) := by
  simp only [fetchCurrentHeight]
  rw [if_neg hn, if_pos hiss, if_pos hc]

theorem findFallbackAux_finds (heights : Nat → Nat) (n a j : Nat)
    (hjn : j < n) (hpos : 0 < heights ((a + j) % n))
    (hfirst : ∀ i, 1 ≤ i → i < j → heights ((a + i) % n) = 0) :
    ∀ fuel i, 1 ≤ i → i ≤ j → j - i < fuel →
      findFallbackAux heights n a 0 i fuel
        = some ((a + j) % n, heights ((a + j) % n)) := by
  intro fuel
  induction fuel with
  | zero => intro i _ _ hf; omega
  | succ f ih =>
    intro i hi1 hij hf
    have hin : i < n := by omega
    simp only [findFallbackAux]
    rw [if_pos hin]
    by_cases heq : i = j
    · subst heq
      simp [hpos]
    · have hz := hfirst i hi1 (by omega)
      rw [hz]
      simpa using ih (i + 1) (by omega) (by omega) (by omega)

/-- C3: from a state with issue streak 0, while the active endpoint keeps
returning height 0 the first 29 polls leave the active index unchanged and
serve the last known good height; the 30th poll switches the active index to
the first candidate (in scan order from the endpoint after the active one)
reporting a positive height. -/
theorem claim_C3 (heights : Nat → Nat) (n a L j : Nat) (b : Bool)
    (_han : a < n) (h0 : heights a = 0) (hL : L ≠ 0)
    (hj1 : 1 ≤ j) (hjn : j < n) (hjpos : 0 < heights ((a + j) % n))
    (hfirst : ∀ i, 1 ≤ i → i < j → heights ((a + i) % n) = 0) :
    (∀ k, k ≤ 29 →
        (pollStep heights n)^[k] ⟨a, L, 0, b⟩ = ⟨a, L, k, b⟩) ∧
    (∀ k, k < 29 →
        (fetchCurrentHeight heights n ((pollStep heights n)^[k] ⟨a, L, 0, b⟩)).1 = L) ∧
    ((pollStep heights n)^[30] ⟨a, L, 0, b⟩).activeIndex = (a + j) % n := by
  have hn : n ≠ 0 := by omega
  have key : ∀ k, k ≤ 29 → (pollStep heights n)^[k] ⟨a, L, 0, b⟩ = ⟨a, L, k, b⟩ := by
    intro k
    induction k with
    | zero => intro _; rfl
    | succ m ih =>
      intro hk
      rw [Function.iterate_succ_apply', ih (by omega)]
      show (fetchCurrentHeight heights n ⟨a, L, m, b⟩).2.1 = ⟨a, L, m + 1, b⟩
      rw [fetchCurrentHeight_below_threshold heights n ⟨a, L, m, b⟩ hn
        (Or.inl h0) (by simp only [FAILOVER_THRESHOLD]; omega)]
  have fetch30 : fetchCurrentHeight heights n ⟨a, L, 29, b⟩
      = (heights ((a + j) % n), ⟨(a + j) % n, heights ((a + j) % n), 0, true⟩,
          if b then [] else [.rpcFailover a ((a + j) % n)]) := by
    have hfb : findFallback heights n a 0 = some ((a + j) % n, heights ((a + j) % n)) :=
      findFallbackAux_finds heights n a j hjn hjpos hfirst n 1 le_rfl hj1 (by omega)
    simp only [fetchCurrentHeight]
    rw [if_neg hn]
    simp only [h0, FAILOVER_THRESHOLD]
    rw [if_pos (Or.inl trivial), if_neg (by omega : ¬(29 + 1 < 30)), hfb]
  refine ⟨key, fun k hk => ?_, ?_⟩
  · rw [key k (by omega),
      fetchCurrentHeight_below_threshold heights n ⟨a, L, k, b⟩ hn
        (Or.inl h0) (by simp only [FAILOVER_THRESHOLD]; omega)]
    simp [hL]
  · rw [show (30 : Nat) = 29 + 1 from rfl, Function.iterate_succ_apply',
      key 29 le_rfl]
    show (fetchCurrentHeight heights n ⟨a, L, 29, b⟩).2.1.activeIndex = (a + j) % n
    rw [fetch30]

/-- Concrete height oracle for the C3 witness: endpoint 1 reports 100, all
others (the active endpoint 0 included) report 0. -/
def c3heights : Nat → Nat := fun i => if i = 1 then 100 else 0

/-- Witness for C3 at a concrete two-endpoint network. -/
theorem claim_C3_witness :
    ((pollStep c3heights 2)^[29] ⟨0, 50, 0, false⟩).activeIndex = 0 ∧
    (fetchCurrentHeight c3heights 2 ((pollStep c3heights 2)^[10] ⟨0, 50, 0, false⟩)).1 = 50 ∧
    ((pollStep c3heights 2)^[30] ⟨0, 50, 0, false⟩).activeIndex = 1 := by
  have h := claim_C3 c3heights 2 0 50 1 false (by decide) (by decide) (by decide)
    (by decide) (by decide) (by decide) (fun i h1 h2 => by omega)
  exact ⟨by rw [h.1 29 (by omega)], h.2.1 10 (by omega), by rw [h.2.2]⟩

/-- Concrete height oracle for the C7 counterexample: the primary (index 0)
reports 5, every other endpoint reports 0. -/
def c7heights : Nat → Nat := fun i => if i = 0 then 5 else 0

/-- C7, counterexample: with two endpoints, fallback index 1 active,
`lastHeight = 3` and an issue streak of 29, one more poll in which the
fallback reports 0 and the primary reports 5 reaches the failover threshold,
and the wrap-around fallback scan of `fetchCurrentHeight` — not the dedicated
recovery check — switches the active index back to the primary (index 0),
without comparing against the last known height. -/
theorem claim_C7_counterexample :
    (fetchCurrentHeight c7heights 2 ⟨1, 3, 29, true⟩).2.1.activeIndex = 0 ∧
    (1 : Nat) ≠ 0 := by decide

/-- C7 (amended): while the issue streak is below the failover threshold, a
poll never changes the active index (in particular a transient positive
primary height causes no switch back); the dedicated recovery check switches
back to the primary exactly when it observes the primary's height positive and
strictly greater than the network's last known height.  (A sustained outage of
the current active endpoint can additionally return to the primary through the
wrap-around fallback scan, per the counterexample.) -/
theorem claim_C7_amended :
    (∀ (heights : Nat → Nat) (n : Nat) (s : FailoverState),
        s.issueCount + 1 < FAILOVER_THRESHOLD →
        (fetchCurrentHeight heights n s).2.1.activeIndex = s.activeIndex) ∧
    (∀ (primaryHeight n : Nat) (s : FailoverState),
        s.activeIndex ≠ 0 → 0 < n → 0 < primaryHeight →
        s.lastHeight < primaryHeight →
        checkPrimaryRecovery primaryHeight n s
          = (⟨0, primaryHeight, 0, false⟩, [.rpcRecovered s.activeIndex 0])) ∧
    (∀ (primaryHeight n : Nat) (s : FailoverState),
        ¬(s.activeIndex ≠ 0 ∧ 0 < n ∧ 0 < primaryHeight ∧
            s.lastHeight < primaryHeight) →
        checkPrimaryRecovery primaryHeight n s = (s, [])) := by
  refine ⟨fun heights n s hc => ?_, fun ph n s h1 h2 h3 h4 => ?_,
    fun ph n s hneg => ?_⟩
  · by_cases hn : n = 0
    · simp [fetchCurrentHeight, hn]
    · by_cases hiss : heights s.activeIndex = 0 ∨ heights s.activeIndex = s.lastHeight
      · rw [fetchCurrentHeight_below_threshold heights n s hn hiss hc]
      · simp only [fetchCurrentHeight]
        rw [if_neg hn, if_neg hiss]
  · simp only [checkPrimaryRecovery]
    rw [if_pos ⟨h1, h2⟩, if_pos ⟨h3, h4⟩]
  · simp only [checkPrimaryRecovery]
    by_cases h1 : s.activeIndex ≠ 0 ∧ n > 0
    · rw [if_pos h1, if_neg (fun h2 => hneg ⟨h1.1, h1.2, h2.1, h2.2⟩)]
    · rw [if_neg h1]

/-- Witness for C7 (amended) at concrete inputs. -/
theorem claim_C7_witness :
    (fetchCurrentHeight (fun _ => 0) 2 ⟨1, 3, 5, false⟩).2.1.activeIndex = 1 ∧
    checkPrimaryRecovery 9 2 ⟨1, 3, 0, true⟩
      = (⟨0, 9, 0, false⟩, [.rpcRecovered 1 0]) ∧
    checkPrimaryRecovery 2 2 ⟨1, 3, 0, true⟩ = (⟨1, 3, 0, true⟩, []) :=
  ⟨claim_C7_amended.1 (fun _ => 0) 2 ⟨1, 3, 5, false⟩ (by decide),
   claim_C7_amended.2.1 9 2 ⟨1, 3, 0, true⟩ (by decide) (by decide) (by decide)
     (by decide),
   claim_C7_amended.2.2 2 2 ⟨1, 3, 0, true⟩ (by decide)⟩

/-! ## RPC probes (`lib/api.ts` `fetchBlockHeight`, instrumentation file
`checkRpcHealth`)

`fetchBlockHeight` does `parseInt(data.result, 16)` on the parsed JSON body;
JavaScript `parseInt` yields `NaN` when its argument (after string conversion)
has no leading hex digit — in particular for `undefined`, i.e. a missing
`result` field.  We model a JS number as `Nat`-or-`NaN` and a probe's network
outcome explicitly: `failure` is a thrown error (network error, timeout,
unparsable body — the `catch` path), `response ok result` is an HTTP response
with status-ok flag `ok` and the optional `result` field of the JSON body. -/

/-- A JavaScript number as produced by `parseInt`: a natural or `NaN`. -/
inductive JsNum
  | num (n : Nat)
  | nan
  deriving DecidableEq, Repr

/-- Value of a hex digit, `none` for a non-digit. -/
def hexDigitVal (c : Char) : Option Nat :=
  if '0' ≤ c ∧ c ≤ '9' then some (c.toNat - '0'.toNat)
  else if 'a' ≤ c ∧ c ≤ 'f' then some (c.toNat - 'a'.toNat + 10)
  else if 'A' ≤ c ∧ c ≤ 'F' then some (c.toNat - 'A'.toNat + 10)
  else none

/-- Accumulate the value of the longest leading run of hex digits. -/
def takeHexVal : List Char → Nat → Nat
  | [], acc => acc
  | c :: cs, acc =>
    match hexDigitVal c with
    | some d => takeHexVal cs (acc * 16 + d)
    | none => acc

/-- JS `parseInt(x, 16)` on an optional string: `undefined` (a missing field)
stringifies to `"undefined"`, which has no leading hex digit, so `NaN`; a
present string is read after an optional `0x`/`0X` marker, `NaN` when no hex
digit follows. -/
def jsParseIntHex : Option String → JsNum
  | none => .nan
  | some str =>
    let cs :=
      match str.toList with
      | '0' :: 'x' :: rest => rest
      | '0' :: 'X' :: rest => rest
      | l => l
    match cs with
    | [] => .nan
    | c :: _ => if (hexDigitVal c).isSome then .num (takeHexVal cs 0) else .nan

/-- Outcome of one HTTP probe as seen by the calling code. -/
inductive FetchOutcome
  | failure
  | response (ok : Bool) (result : Option String)
  deriving DecidableEq, Repr

/-- `fetchBlockHeight` from `lib/api.ts`: 0 on thrown error or non-ok status,
otherwise `parseInt(data.result, 16)` with **no** guard on the presence of
`result`. -/
def fetchBlockHeight (o : FetchOutcome) : JsNum :=
  match o with
  | .failure => .num 0
  | .response ok result => if ok then jsParseIntHex result else .num 0

/-- `checkRpcHealth` from the instrumentation file: 0 on thrown error, and
`data.result ? parseInt(data.result, 16) : 0` otherwise (no status check; a
falsy — missing or empty — `result` yields 0). -/
def checkRpcHealth (o : FetchOutcome) : JsNum :=
  match o with
  | .failure => .num 0
  | .response _ result =>
    match result with
    | none => .num 0
    | some s => if s = "" then .num 0 else jsParseIntHex (some s)

/-- C5: contrary to the claim (and to the spec's safe-default rule), a
well-formed HTTP-success response whose JSON body is missing the `result`
field makes `fetchBlockHeight` return `NaN`, not 0 — `parseInt(undefined, 16)`
is `NaN`.  The sibling probe `checkRpcHealth` in the instrumentation file does
guard the field and returns 0 on the same input. -/
theorem claim_C5_bug :
    fetchBlockHeight (.response true none) = .nan ∧
    fetchBlockHeight (.response true none) ≠ .num 0 ∧
    checkRpcHealth (.response true none) = .num 0 ∧
    fetchBlockHeight .failure = .num 0 ∧
    fetchBlockHeight (.response false none) = .num 0 := by
  refine ⟨rfl, by decide, rfl, rfl, rfl⟩

/-! ## AlertDispatcher (`lib/alerts.ts` `AlertManager`, `/api/alert` route)

The notification sends become a list of `BackendCall`s; the credential strings
of the config are irrelevant to control flow, so a backend's configuration is
its presence flag (plus the threshold for PagerDuty).  The per-key maps become
total functions with the source's `|| 0` / falsy defaults. -/

/-- Validator alert kind. -/
inductive AlertType
  | missed
  | recovered
  deriving DecidableEq, Repr

/-- The `AlertPayload` built by the dispatchers. -/
structure AlertPayload where
  validator : String
  network : String
  height : Option Int
  round : Nat
  type : AlertType
  consecutiveMisses : Option Nat
  previousStreak : Option Nat
  deriving DecidableEq, Repr

/-- One outbound notification call. -/
inductive BackendCall
  | telegram (p : AlertPayload)
  | discord (p : AlertPayload)
  | pagerduty (p : AlertPayload)
  deriving DecidableEq, Repr

/-- The `event_action` `sendPagerDutyAlert` derives from the payload type. -/
def pdAction (p : AlertPayload) : String :=
  match p.type with
  | .missed => "trigger"
  | .recovered => "resolve"

/-- `AlertManagerConfig`: which backends are configured, with the PagerDuty
threshold when PagerDuty is. -/
structure AlertManagerConfig where
  telegram : Bool
  discord : Bool
  pagerduty : Option Nat
  deriving DecidableEq, Repr

/-- The two private maps of `AlertManager`, as total functions with the
defaults `0` and `false` the source applies on lookup. -/
structure AlertManagerState where
  consecutiveMisses : String → Nat
  pagerdutyTriggered : String → Bool

/-- `AlertManager.getKey`. -/
def getKey (validator network : String) : String := validator ++ "-" ++ network

/-- `AlertManager.handleMissedBlock`: bump the consecutive-miss count, send
Telegram and Discord when configured, and send one PagerDuty trigger when the
count reaches the threshold and the per-key guard is not yet set. -/
def handleMissedBlock (cfg : AlertManagerConfig) (st : AlertManagerState)
    (validator network : String) (height : Option Int) (round : Nat) :
    AlertManagerState × List BackendCall :=
  let key := getKey validator network
  let misses := st.consecutiveMisses key + 1
  let st1 : AlertManagerState :=
    ⟨Function.update st.consecutiveMisses key misses, st.pagerdutyTriggered⟩
  let payload : AlertPayload :=
    ⟨validator, network, height, round, .missed, some misses, none⟩
  let tgCalls := if cfg.telegram then [BackendCall.telegram payload] else []
  let dcCalls := if cfg.discord then [BackendCall.discord payload] else []
  match cfg.pagerduty with
  | some threshold =>
    if misses ≥ threshold ∧ ¬(st1.pagerdutyTriggered key = true) then
      (⟨st1.consecutiveMisses, Function.update st1.pagerdutyTriggered key true⟩,
        tgCalls ++ dcCalls ++ [BackendCall.pagerduty payload])
    else (st1, tgCalls ++ dcCalls)
  | none => (st1, tgCalls ++ dcCalls)

/-- `AlertManager.handleRecovery`: when the key had misses, reset the count
and, when PagerDuty is configured and was triggered for the key, send one
PagerDuty resolve and clear the guard.  No Telegram or Discord call is made
here. -/
def handleRecovery (cfg : AlertManagerConfig) (st : AlertManagerState)
    (validator network : String) (height : Option Int) (round : Nat) :
    AlertManagerState × List BackendCall :=
  let key := getKey validator network
  if st.consecutiveMisses key > 0 then
    let previousStreak := st.consecutiveMisses key
    let st1 : AlertManagerState :=
      ⟨Function.update st.consecutiveMisses key 0, st.pagerdutyTriggered⟩
    let payload : AlertPayload :=
      ⟨validator, network, height, round, .recovered, none, some previousStreak⟩
    if cfg.pagerduty.isSome ∧ st1.pagerdutyTriggered key = true then
      (⟨st1.consecutiveMisses, Function.update st1.pagerdutyTriggered key false⟩,
        [BackendCall.pagerduty payload])
    else (st1, [])
  else (st, [])

/-- Environment variables read by the `/api/alert` route handler. -/
structure RouteEnv where
  telegram : Bool
  discord : Bool
  pagerduty : Bool
  threshold : Nat
  deriving DecidableEq, Repr

/-- The module-level `consecutiveMisses` / `pagerdutyTriggered` maps of the
route handler. -/
structure RouteState where
  consecutiveMisses : String → Nat
  pagerdutyTriggered : String → Bool

/-- The validator-alert branch of the `/api/alert` POST handler: update the
per-key miss count (bump on `missed`, reset to 0 on `recovered`, keeping the
request's own `consecutiveMisses` field in the payload for `recovered`), send
Telegram and Discord on every alert when configured, and apply the PagerDuty
threshold/guard policy. -/
def routeValidatorPost (env : RouteEnv) (st : RouteState)
    (validator network : String) (height : Option Int) (round : Nat)
    (type : AlertType) (reqConsecutiveMisses : Option Nat) :
    RouteState × List BackendCall :=
  let key := validator ++ "-" ++ network
  let updated : RouteState × Option Nat :=
    match type with
    | .missed =>
      let current := st.consecutiveMisses key + 1
      (⟨Function.update st.consecutiveMisses key current, st.pagerdutyTriggered⟩,
        some current)
    | .recovered =>
      (⟨Function.update st.consecutiveMisses key 0, st.pagerdutyTriggered⟩,
        reqConsecutiveMisses)
  let st1 := updated.1
  let cm := updated.2
  let payload : AlertPayload := ⟨validator, network, height, round, type, cm, none⟩
  let tgCalls := if env.telegram then [BackendCall.telegram payload] else []
  let dcCalls := if env.discord then [BackendCall.discord payload] else []
  if env.pagerduty then
    if type = .missed ∧ cm.getD 0 ≥ env.threshold then
      if ¬(st1.pagerdutyTriggered key = true) then
        (⟨st1.consecutiveMisses, Function.update st1.pagerdutyTriggered key true⟩,
          tgCalls ++ dcCalls ++ [BackendCall.pagerduty payload])
      else (st1, tgCalls ++ dcCalls)
    else if type = .recovered ∧ st1.pagerdutyTriggered key = true then
      (⟨st1.consecutiveMisses, Function.update st1.pagerdutyTriggered key false⟩,
        tgCalls ++ dcCalls ++ [BackendCall.pagerduty payload])
    else (st1, tgCalls ++ dcCalls)
  else (st1, tgCalls ++ dcCalls)

/-- Apply `handleMissedBlock` `k` times for one key, collecting the calls in
order (the scenario runner for a streak of consecutive misses). -/
def missRun (cfg : AlertManagerConfig) (v n : String) (h : Option Int) (r : Nat) :
    Nat → AlertManagerState → AlertManagerState × List BackendCall
  | 0, st => (st, [])
  | k + 1, st =>
    let step := handleMissedBlock cfg st v n h r
    let rest := missRun cfg v n h r k step.1
    (rest.1, step.2 ++ rest.2)

/-- Is a call a PagerDuty call? -/
def isPd : BackendCall → Bool
  | .pagerduty _ => true
  | _ => false

/-- Number of PagerDuty calls in a call list. -/
def pdCount (calls : List BackendCall) : Nat := (calls.filter isPd).length

theorem pdCount_append (a b : List BackendCall) :
    pdCount (a ++ b) = pdCount a + pdCount b := by
  simp [pdCount, List.filter_append]

theorem pdCount_tgdc (t d : Bool) (p : AlertPayload) :
    pdCount ((if t then [BackendCall.telegram p] else []) ++
      (if d then [BackendCall.discord p] else [])) = 0 := by
  cases t <;> cases d <;> rfl

theorem pdCount_tgdc_pd (t d : Bool) (p : AlertPayload) :
    pdCount ((if t then [BackendCall.telegram p] else []) ++
      (if d then [BackendCall.discord p] else []) ++ [BackendCall.pagerduty p]) = 1 := by
  cases t <;> cases d <;> rfl

/-- One below-threshold miss: no PagerDuty call, the key's count bumps by one,
the trigger map is untouched. -/
theorem miss_below (cfg : AlertManagerConfig) (th : Nat)
    (hpd : cfg.pagerduty = some th) (st : AlertManagerState) (v n : String)
    (h : Option Int) (r : Nat)
    (hlt : st.consecutiveMisses (getKey v n) + 1 < th) :
    pdCount (handleMissedBlock cfg st v n h r).2 = 0 ∧
    (handleMissedBlock cfg st v n h r).1.consecutiveMisses (getKey v n)
      = st.consecutiveMisses (getKey v n) + 1 ∧
    (handleMissedBlock cfg st v n h r).1.pagerdutyTriggered
      = st.pagerdutyTriggered := by
  simp only [handleMissedBlock, hpd]
  rw [if_neg (fun hcon => absurd hcon.1 (by omega))]
  exact ⟨pdCount_tgdc _ _ _, by simp [Function.update_same], rfl⟩

/-- A threshold-reaching miss with the guard unset: exactly one PagerDuty
call, the count bumps, the guard is set. -/
theorem miss_at (cfg : AlertManagerConfig) (th : Nat)
    (hpd : cfg.pagerduty = some th) (st : AlertManagerState) (v n : String)
    (h : Option Int) (r : Nat)
    (hge : st.consecutiveMisses (getKey v n) + 1 ≥ th)
    (hnt : st.pagerdutyTriggered (getKey v n) = false) :
    pdCount (handleMissedBlock cfg st v n h r).2 = 1 ∧
    (handleMissedBlock cfg st v n h r).1.consecutiveMisses (getKey v n)
      = st.consecutiveMisses (getKey v n) + 1 ∧
    (handleMissedBlock cfg st v n h r).1.pagerdutyTriggered (getKey v n)
      = true := by
  simp only [handleMissedBlock, hpd]
  rw [if_pos ⟨hge, by simp [hnt]⟩]
  exact ⟨pdCount_tgdc_pd _ _ _, by simp [Function.update_same],
    by simp [Function.update_same]⟩

/-- A recovery on a key with misses and a set guard: exactly one PagerDuty
call (the resolve), the count resets, the guard clears. -/
theorem recovery_resolves (cfg : AlertManagerConfig) (st : AlertManagerState)
    (v n : String) (h : Option Int) (r : Nat)
    (hpds : cfg.pagerduty.isSome = true)
    (hpos : 0 < st.consecutiveMisses (getKey v n))
    (htr : st.pagerdutyTriggered (getKey v n) = true) :
    pdCount (handleRecovery cfg st v n h r).2 = 1 ∧
    (handleRecovery cfg st v n h r).1.consecutiveMisses (getKey v n) = 0 ∧
    (handleRecovery cfg st v n h r).1.pagerdutyTriggered (getKey v n)
      = false := by
  simp only [handleRecovery]
  rw [if_pos hpos, if_pos ⟨hpds, htr⟩]
  exact ⟨rfl, by simp [Function.update_same], by simp [Function.update_same]⟩

/-- A run of misses that stays strictly below the threshold produces no
PagerDuty call, accumulates the count and leaves the guard unset. -/
theorem missRun_below (cfg : AlertManagerConfig) (th : Nat)
    (hpd : cfg.pagerduty = some th) (v n : String) (h : Option Int) (r : Nat) :
    ∀ (k : Nat) (st : AlertManagerState),
      st.pagerdutyTriggered (getKey v n) = false →
      st.consecutiveMisses (getKey v n) + k < th →
      pdCount (missRun cfg v n h r k st).2 = 0 ∧
      (missRun cfg v n h r k st).1.consecutiveMisses (getKey v n)
        = st.consecutiveMisses (getKey v n) + k ∧
      (missRun cfg v n h r k st).1.pagerdutyTriggered (getKey v n) = false := by
  intro k
  induction k with
  | zero => intro st ht _; exact ⟨rfl, rfl, ht⟩
  | succ k ih =>
    intro st ht hlt
    obtain ⟨cz, mz, tz⟩ := miss_below cfg th hpd st v n h r (by omega)
    have htz : (handleMissedBlock cfg st v n h r).1.pagerdutyTriggered (getKey v n)
        = false := by rw [tz]; exact ht
    obtain ⟨hc, hm2, ht2⟩ := ih (handleMissedBlock cfg st v n h r).1 htz
      (by rw [mz]; omega)
    refine ⟨?_, ?_, ?_⟩
    · simp only [missRun]
      rw [pdCount_append, cz, hc]
    · simp only [missRun]
      rw [hm2, mz]
      omega
    · simp only [missRun]
      exact ht2

/-- C8: with PagerDuty threshold 5 and a fresh key, four misses produce no
PagerDuty call; the fifth produces exactly one (the trigger); a subsequent
recovery produces exactly one (the resolve) and clears the guard and count;
and four further misses after the reset again produce no PagerDuty call. -/
theorem claim_C8 (cfg : AlertManagerConfig) (hpd : cfg.pagerduty = some 5)
    (v n : String) (h : Option Int) (r : Nat) (st0 : AlertManagerState)
    (hm : st0.consecutiveMisses (getKey v n) = 0)
    (ht : st0.pagerdutyTriggered (getKey v n) = false) :
    pdCount (missRun cfg v n h r 4 st0).2 = 0 ∧
    pdCount (handleMissedBlock cfg (missRun cfg v n h r 4 st0).1 v n h r).2 = 1 ∧
    pdCount (handleRecovery cfg
      (handleMissedBlock cfg (missRun cfg v n h r 4 st0).1 v n h r).1 v n h r).2 = 1 ∧
    (handleRecovery cfg
      (handleMissedBlock cfg (missRun cfg v n h r 4 st0).1 v n h r).1 v n h r).1.pagerdutyTriggered
      (getKey v n) = false ∧
    (handleRecovery cfg
      (handleMissedBlock cfg (missRun cfg v n h r 4 st0).1 v n h r).1 v n h r).1.consecutiveMisses
      (getKey v n) = 0 ∧
    pdCount (missRun cfg v n h r 4 (handleRecovery cfg
      (handleMissedBlock cfg (missRun cfg v n h r 4 st0).1 v n h r).1 v n h r).1).2 = 0 := by
  obtain ⟨r4z, r4m, r4t⟩ := missRun_below cfg 5 hpd v n h r 4 st0 ht (by omega)
  obtain ⟨p5, m5, t5⟩ := miss_at cfg 5 hpd (missRun cfg v n h r 4 st0).1 v n h r
    (by rw [r4m, hm]) r4t
  obtain ⟨rp, rm, rt⟩ := recovery_resolves cfg
    (handleMissedBlock cfg (missRun cfg v n h r 4 st0).1 v n h r).1 v n h r
    (by rw [hpd]; rfl) (by rw [m5, r4m, hm]; omega) t5
  obtain ⟨z2, _, _⟩ := missRun_below cfg 5 hpd v n h r 4
    (handleRecovery cfg
      (handleMissedBlock cfg (missRun cfg v n h r 4 st0).1 v n h r).1 v n h r).1
    rt (by rw [rm]; omega)
  exact ⟨r4z, p5, rp, rt, rm, z2⟩

/-- The fresh `AlertManager` state: every key at 0 misses, guard unset. -/
def amFresh : AlertManagerState := ⟨fun _ => 0, fun _ => false⟩

/-- Witness for C8 at a concrete configuration and key. -/
theorem claim_C8_witness :
    pdCount (missRun ⟨true, true, some 5⟩ "val" "mainnet" (some 10) 99 4 amFresh).2 = 0 ∧
    pdCount (handleMissedBlock ⟨true, true, some 5⟩
      (missRun ⟨true, true, some 5⟩ "val" "mainnet" (some 10) 99 4 amFresh).1
      "val" "mainnet" (some 10) 99).2 = 1 ∧
    pdCount (handleRecovery ⟨true, true, some 5⟩
      (handleMissedBlock ⟨true, true, some 5⟩
        (missRun ⟨true, true, some 5⟩ "val" "mainnet" (some 10) 99 4 amFresh).1
        "val" "mainnet" (some 10) 99).1 "val" "mainnet" (some 10) 99).2 = 1 ∧
    (handleRecovery ⟨true, true, some 5⟩
      (handleMissedBlock ⟨true, true, some 5⟩
        (missRun ⟨true, true, some 5⟩ "val" "mainnet" (some 10) 99 4 amFresh).1
        "val" "mainnet" (some 10) 99).1 "val" "mainnet" (some 10) 99).1.pagerdutyTriggered
      (getKey "val" "mainnet") = false ∧
    (handleRecovery ⟨true, true, some 5⟩
      (handleMissedBlock ⟨true, true, some 5⟩
        (missRun ⟨true, true, some 5⟩ "val" "mainnet" (some 10) 99 4 amFresh).1
        "val" "mainnet" (some 10) 99).1 "val" "mainnet" (some 10) 99).1.consecutiveMisses
      (getKey "val" "mainnet") = 0 ∧
    pdCount (missRun ⟨true, true, some 5⟩ "val" "mainnet" (some 10) 99 4
      (handleRecovery ⟨true, true, some 5⟩
        (handleMissedBlock ⟨true, true, some 5⟩
          (missRun ⟨true, true, some 5⟩ "val" "mainnet" (some 10) 99 4 amFresh).1
          "val" "mainnet" (some 10) 99).1 "val" "mainnet" (some 10) 99).1).2 = 0 :=
  claim_C8 ⟨true, true, some 5⟩ rfl "val" "mainnet" (some 10) 99 amFresh rfl rfl

/-- C10: a recovery for a key whose recorded miss count is zero makes no
backend call and leaves the whole dispatcher state (both maps, at every key)
unchanged. -/
theorem claim_C10 (cfg : AlertManagerConfig) (st : AlertManagerState)
    (v n : String) (h : Option Int) (r : Nat)
    (hz : st.consecutiveMisses (getKey v n) = 0) :
    handleRecovery cfg st v n h r = (st, []) := by
  simp only [handleRecovery]
  rw [if_neg (by omega)]

/-- Witness for C10 at a concrete configuration and fresh state. -/
theorem claim_C10_witness :
    handleRecovery ⟨true, true, some 5⟩ amFresh "val" "mainnet" (some 10) 99
      = (amFresh, []) :=
  claim_C10 ⟨true, true, some 5⟩ amFresh "val" "mainnet" (some 10) 99 rfl

/-- A state recording a streak of 3 for the key `val-mainnet`, guard unset. -/
def c4state : AlertManagerState :=
  ⟨fun k => if k = "val-mainnet" then 3 else 0, fun _ => false⟩

/-- Like `c4state` but with the PagerDuty guard set for the key. -/
def c4stateTriggered : AlertManagerState :=
  ⟨fun k => if k = "val-mainnet" then 3 else 0, fun k => k == "val-mainnet"⟩

/-- C4, counterexample: with Telegram, Discord and PagerDuty all configured
and a recorded streak of 3 for the key, `AlertManager.handleRecovery` makes no
Telegram and no Discord call — here its call list is empty outright (the
PagerDuty guard being unset, not even a resolve goes out). -/
theorem claim_C4_counterexample :
    (handleRecovery ⟨true, true, some 5⟩ c4state "val" "mainnet" (some 10) 99).2
      = [] := by decide

/-- C4 (amended): on a `recovered` event the chat and webhook deliveries
happen in the `/api/alert` route handler — with Telegram and Discord
configured its call list starts with a Telegram and a Discord call carrying
the recovered payload — while `AlertManager.handleRecovery` only ever
produces PagerDuty calls. -/
theorem claim_C4_amended :
    (∀ (env : RouteEnv) (st : RouteState) (v n : String) (h : Option Int)
        (r : Nat) (cm : Option Nat),
        env.telegram = true → env.discord = true →
        ∃ (p : AlertPayload) (rest : List BackendCall),
          (routeValidatorPost env st v n h r .recovered cm).2
            = .telegram p :: .discord p :: rest ∧ p.type = .recovered) ∧
    (∀ (cfg : AlertManagerConfig) (st : AlertManagerState) (v n : String)
        (h : Option Int) (r : Nat) (c : BackendCall),
        c ∈ (handleRecovery cfg st v n h r).2 → ∃ p, c = .pagerduty p) := by
  constructor
  · intro env st v n h r cm htg hdc
    refine ⟨⟨v, n, h, r, .recovered, cm, none⟩, ?_⟩
    by_cases hpd : env.pagerduty = true
    · by_cases htr : st.pagerdutyTriggered (v ++ "-" ++ n) = true
      · exact ⟨[.pagerduty ⟨v, n, h, r, .recovered, cm, none⟩],
          by simp [routeValidatorPost, htg, hdc, hpd, htr], rfl⟩
      · exact ⟨[], by simp [routeValidatorPost, htg, hdc, hpd, htr], rfl⟩
    · exact ⟨[], by simp [routeValidatorPost, htg, hdc, hpd], rfl⟩
  · intro cfg st v n h r c hc
    simp only [handleRecovery] at hc
    split at hc
    · split at hc
      · simp only [List.mem_singleton] at hc
        exact ⟨_, hc⟩
      · simp at hc
    · simp at hc

/-- The fresh route-handler state. -/
def routeFresh : RouteState := ⟨fun _ => 0, fun _ => false⟩

/-- Witness for C4 (amended) at concrete inputs. -/
theorem claim_C4_witness :
    (∃ (p : AlertPayload) (rest : List BackendCall),
        (routeValidatorPost ⟨true, true, true, 5⟩ routeFresh "v" "mainnet"
            (some 10) 99 .recovered (some 2)).2
          = .telegram p :: .discord p :: rest ∧ p.type = .recovered) ∧
    (∃ p, BackendCall.pagerduty
        ⟨"val", "mainnet", some 10, 99, .recovered, none, some 3⟩
      = BackendCall.pagerduty p) :=
  ⟨claim_C4_amended.1 ⟨true, true, true, 5⟩ routeFresh "v" "mainnet" (some 10)
      99 (some 2) rfl rfl,
   claim_C4_amended.2 ⟨true, true, some 5⟩ c4stateTriggered "val" "mainnet"
      (some 10) 99 _ (by decide)⟩

/-! ## AllOfflineDetector (instrumentation file, `runRpcHealthCheck`)

The per-network all-offline block of `runRpcHealthCheck`, per tick: the
endpoint probing is summarized by the healthy count, the wall clock by `now`
in milliseconds, and the `checkChainProgress` secondary signal by the flag
`chainProgressing`. -/

/-- Per-network all-offline state (`allOfflineState.mainnet` / `.testnet`). -/
structure AllOfflineState where
  isOffline : Bool
  since : Option Nat
  alertSent : Bool
  deriving DecidableEq, Repr

/-- The `all_offline` alert event, carrying the downtime in whole minutes and
the chain-progress flag. -/
inductive AllOfflineEvent
  | allOffline (downtimeMinutes : Nat) (chainProgressing : Bool)
  deriving DecidableEq, Repr

/-- One tick of the all-offline logic for one network: with zero healthy
endpoints out of `numRpcs > 0` configured, enter the offline state (recording
`since := now`) if not already offline, and emit one `all_offline` event when
the downtime `floor((now - since)/1000/60)` reaches 3 minutes and no alert was
sent for this episode; with some endpoint healthy, clear the state. -/
def allOfflineStep (healthyCount numRpcs now : Nat) (chainProgressing : Bool)
    (s : AllOfflineState) : AllOfflineState × List AllOfflineEvent :=
  if healthyCount = 0 ∧ numRpcs > 0 then
    let s1 := if s.isOffline then s else ⟨true, some now, false⟩
    let downtime :=
      match s1.since with
      | some t => (now - t) / 1000 / 60
      | none => 0
    if downtime ≥ 3 ∧ s1.alertSent = false then
      (⟨s1.isOffline, s1.since, true⟩, [.allOffline downtime chainProgressing])
    else (s1, [])
  else if healthyCount > 0 then
    (⟨false, none, false⟩, [])
  else (s, [])

/-- Run the all-offline tick over a list of tick times during which every
endpoint stays unhealthy (healthy count 0), collecting the events. -/
def allOfflineRun (numRpcs : Nat) (cp : Bool) :
    List Nat → AllOfflineState → AllOfflineState × List AllOfflineEvent
  | [], s => (s, [])
  | t :: ts, s =>
    let step := allOfflineStep 0 numRpcs t cp s
    let rest := allOfflineRun numRpcs cp ts step.1
    (rest.1, step.2 ++ rest.2)

/-- Has the downtime since `t0` reached 3 minutes at time `t`? -/
def offlineCrossed (t0 t : Nat) : Bool := decide ((t - t0) / 1000 / 60 ≥ 3)

theorem allOfflineStep_offline (m t0 now : Nat) (hm : 0 < m) (cp : Bool)
    (b : Bool) :
    allOfflineStep 0 m now cp ⟨true, some t0, b⟩
      = if (now - t0) / 1000 / 60 ≥ 3 ∧ b = false
        then (⟨true, some t0, true⟩,
          [.allOffline ((now - t0) / 1000 / 60) cp])
        else (⟨true, some t0, b⟩, []) := by
  simp only [allOfflineStep]
  rw [if_pos ⟨trivial, hm⟩]
  simp

/-- Once the alert for the episode is sent, further offline ticks emit nothing
and change nothing. -/
theorem allOfflineRun_sent (m : Nat) (hm : 0 < m) (cp : Bool) (t0 : Nat) :
    ∀ ts : List Nat,
      allOfflineRun m cp ts ⟨true, some t0, true⟩ = (⟨true, some t0, true⟩, []) := by
  intro ts
  induction ts with
  | nil => rfl
  | cons t ts ih =>
    simp only [allOfflineRun]
    rw [allOfflineStep_offline m t0 t hm cp true]
    rw [if_neg (fun hcon => by simpa using hcon.2)]
    simp [ih]

/-- From an armed offline state (`since = t0`, no alert yet), a run of offline
ticks emits exactly one event at the first tick whose downtime reaches 3
minutes (none if no tick does), and the final alert flag records whether some
tick crossed. -/
theorem allOfflineRun_armed (m : Nat) (hm : 0 < m) (cp : Bool) (t0 : Nat) :
    ∀ ts : List Nat,
      (allOfflineRun m cp ts ⟨true, some t0, false⟩).2
        = (match ts.find? (offlineCrossed t0) with
           | some t => [AllOfflineEvent.allOffline ((t - t0) / 1000 / 60) cp]
           | none => []) ∧
      (allOfflineRun m cp ts ⟨true, some t0, false⟩).1
        = ⟨true, some t0, ts.any (offlineCrossed t0)⟩ := by
  intro ts
  induction ts with
  | nil => exact ⟨rfl, rfl⟩
  | cons t ts ih =>
    by_cases hx : offlineCrossed t0 t = true
    · have hx' : (t - t0) / 1000 / 60 ≥ 3 := by simpa [offlineCrossed] using hx
      constructor
      · simp only [allOfflineRun]
        rw [allOfflineStep_offline m t0 t hm cp false, if_pos ⟨hx', rfl⟩]
        simp [allOfflineRun_sent m hm cp t0 ts, List.find?_cons, hx]
      · simp only [allOfflineRun]
        rw [allOfflineStep_offline m t0 t hm cp false, if_pos ⟨hx', rfl⟩]
        simp [allOfflineRun_sent m hm cp t0 ts, List.any_cons, hx]
    · have hx' : ¬((t - t0) / 1000 / 60 ≥ 3) := by simpa [offlineCrossed] using hx
      constructor
      · simp only [allOfflineRun]
        rw [allOfflineStep_offline m t0 t hm cp false,
          if_neg (fun hcon => hx' hcon.1)]
        simp [ih.1, List.find?_cons, hx]
      · simp only [allOfflineRun]
        rw [allOfflineStep_offline m t0 t hm cp false,
          if_neg (fun hcon => hx' hcon.1)]
        simp [ih.2, List.any_cons, hx]

/-- C9: for a network with at least one configured endpoint, an all-offline
episode starting fresh at tick time t0 emits exactly one `all_offline` event,
at the first later tick whose downtime since t0 reaches 3 minutes (ticks under
3 minutes emit nothing, and ticks after the alert emit nothing more); a tick
with some healthy endpoint resets the state, re-arming the guard. -/
theorem claim_C9 (m : Nat) (hm : 0 < m) (cp : Bool) (t0 : Nat) (ts : List Nat) :
    ((allOfflineRun m cp (t0 :: ts) ⟨false, none, false⟩).2
      = match ts.find? (offlineCrossed t0) with
        | some t => [AllOfflineEvent.allOffline ((t - t0) / 1000 / 60) cp]
        | none => []) ∧
    (∀ (s : AllOfflineState) (healthy now : Nat), 0 < healthy →
        allOfflineStep healthy m now cp s = (⟨false, none, false⟩, [])) := by
  constructor
  · have hstep : allOfflineStep 0 m t0 cp ⟨false, none, false⟩
        = (⟨true, some t0, false⟩, []) := by
      simp only [allOfflineStep]
      rw [if_pos ⟨trivial, hm⟩]
      simp
    simp only [allOfflineRun]
    rw [hstep]
    simpa using (allOfflineRun_armed m hm cp t0 ts).1
  · intro s healthy now hh
    simp only [allOfflineStep]
    rw [if_neg (fun hcon => by omega), if_pos hh]

/-- Witness for C9: one endpoint, ticks at 0ms, 60000ms (1 min, no event) and
200000ms (3 min, one event); and a healthy tick resets a saturated state. -/
theorem claim_C9_witness :
    (allOfflineRun 1 false [0, 60000, 200000] ⟨false, none, false⟩).2
      = [AllOfflineEvent.allOffline 3 false] ∧
    allOfflineStep 2 1 999 false ⟨true, some 5, true⟩
      = (⟨false, none, false⟩, []) := by
  have h := claim_C9 1 (by decide) false 0 [60000, 200000]
  exact ⟨h.1.trans (by decide), h.2 ⟨true, some 5, true⟩ 2 999 (by decide)⟩

/-- C1, counterexample: on a fresh endpoint, a sequence of exactly two probes
both returning the non-zero height 5 leaves the endpoint classified *healthy*
(the second classification is `true`) with `staleCount = 1`, not unhealthy with
`staleCount = 2` as the claim states. -/
theorem claim_C1_counterexample :
    (rpcRunAux none [5, 5]).1 = [true, true] ∧
    (rpcRunAux none [5, 5]).2 = some ⟨5, 1⟩ ∧
    (rpcRunAux none [5, 5]).2 ≠ some ⟨5, 2⟩ := by decide

/-- C1 (amended): for an endpoint whose record already holds the same non-zero
height with `staleCount = 0`, two further consecutive probes returning that
height leave it classified unhealthy with `staleCount = 2` (equivalently,
three consecutive probes of the same non-zero height from fresh); and for any
endpoint whose probed heights are strictly increasing and positive, every probe
classifies it healthy with `staleCount = 0` throughout. -/
theorem claim_C1_amended :
    (∀ h : Nat, 0 < h →
        rpcRunAux (some ⟨h, 0⟩) [h, h] = ([true, false], some ⟨h, 2⟩)) ∧
    (∀ (h : Nat) (hs : List Nat), 0 < h → List.Chain (· < ·) h hs →
        rpcRunAux none (h :: hs) =
          (List.replicate (hs.length + 1) true, some ⟨hs.getLastD h, 0⟩)) := by
  constructor
  · intro h hpos
    simp only [rpcRunAux, isRpcHealthy]
    rw [if_neg (by omega), if_neg (Nat.lt_irrefl h)]
    simp only []
    rw [if_neg (by omega), if_neg (Nat.lt_irrefl h)]
    simp
  · intro h hs hpos hchain
    have hh : isRpcHealthy none h = (true, some ⟨h, 0⟩) := by
      simp only [isRpcHealthy]
      rw [if_neg (by omega)]
    rw [rpcRunAux_cons, hh]
    simp [rpcRunAux_chain hs h hchain, List.replicate_succ]

/-- Witness for C1 (amended) at concrete inputs. -/
theorem claim_C1_witness :
    rpcRunAux (some ⟨5, 0⟩) [5, 5] = ([true, false], some ⟨5, 2⟩) ∧
    rpcRunAux none [3, 4, 7] = ([true, true, true], some ⟨7, 0⟩) :=
  ⟨claim_C1_amended.1 5 (by decide),
   by
    have hchain : List.Chain (· < ·) 3 [4, 7] :=
      List.Chain.cons (by omega) (List.Chain.cons (by omega) List.Chain.nil)
    simpa using claim_C1_amended.2 3 [4, 7] (by decide) hchain⟩

/-- C6, counterexample: a probe returning height 0 on an endpoint with an
existing record `⟨5, 0⟩` leaves the record unchanged — it is not updated, and
`staleCount` is not incremented as the claim states. -/
theorem claim_C6_counterexample :
    (isRpcHealthy (some ⟨5, 0⟩) 0).2 = some ⟨5, 0⟩ ∧
    (isRpcHealthy (some ⟨5, 0⟩) 0).2 ≠ some ⟨0, 1⟩ ∧
    (isRpcHealthy (some ⟨5, 0⟩) 0).2 ≠ some ⟨5, 1⟩ := by decide

/-- C6 (amended): for every endpoint with an existing record, every probe
returning a *non-zero* height updates the record, with `staleCount` reset to 0
exactly when the newly recorded `lastHeight` strictly exceeds the previous one
and incremented by 1 otherwise; a probe returning height 0 leaves the record
unchanged. -/
theorem claim_C6_amended :
    (∀ (p : RpcHeightRecord) (h : Nat), h ≠ 0 →
        (isRpcHealthy (some p) h).2 =
          some ⟨h, if p.height < h then 0 else p.staleCount + 1⟩) ∧
    (∀ p : RpcHeightRecord, (isRpcHealthy (some p) 0).2 = some p) := by
  refine ⟨fun p h hne => ?_, fun p => by simp [isRpcHealthy]⟩
  simp only [isRpcHealthy]
  rw [if_neg hne]
  by_cases hc : p.height < h
  · rw [if_pos hc, if_pos hc]
  · rw [if_neg hc, if_neg hc]

/-- Witness for C6 (amended) at concrete inputs. -/
theorem claim_C6_witness :
    (isRpcHealthy (some ⟨3, 1⟩) 7).2 = some ⟨7, 0⟩ ∧
    (isRpcHealthy (some ⟨3, 1⟩) 2).2 = some ⟨2, 2⟩ ∧
    (isRpcHealthy (some ⟨3, 1⟩) 0).2 = some ⟨3, 1⟩ :=
  ⟨by simpa using claim_C6_amended.1 ⟨3, 1⟩ 7 (by decide),
   by simpa using claim_C6_amended.1 ⟨3, 1⟩ 2 (by decide),
   claim_C6_amended.2 ⟨3, 1⟩⟩

end Monadoring
